import Mathlib

/-!
Verification of the tool registry in `backend-langchain/tools.py`.

Every tool is a pure parameter-to-query translation over an HTTP GET call,
or a stub returning Python `None`.  We embed the tools as Lean functions:
the external HTTP backend is a function from a URL and a query-parameter
list to the response text (`requests.get(...).text`), process configuration
(`config.BACKEND_URL`, `config.DATABASE_DESCR`) is an explicit record, and
Python `None` is modelled with `Option`.
-/

/-- A Python value as it occurs in the `params` dict handed to `requests.get`. -/
inductive PyVal where
  | pyNone : PyVal
  | pyStr : String → PyVal
  | pyInt : Int → PyVal
deriving DecidableEq, Repr

/-- Serialization of a Python `str | None` argument into the params dict. -/
def PyVal.ofOptStr : Option String → PyVal
  | Option.none => PyVal.pyNone
  | Option.some s => PyVal.pyStr s

/-- Process-wide configuration read by the tools (the `config` module). -/
structure Config where
  DATABASE_DESCR : String
  BACKEND_URL : String
deriving DecidableEq, Repr

/-- The external HTTP backend: a URL and a query-parameter list to the
textual body of the response (`requests.get(url, params).text`). -/
abbrev Http := String → List (String × PyVal) → String

/-- `get_db_info` (tools.py, lines 21 to 31): returns the configured
database-description string. -/
def get_db_info (config : Config) : String :=
  config.DATABASE_DESCR

/-- The fourteen arguments of `get_machine_data` (tools.py, lines 38 to 53).
The two timestamps are `str | None`; the twelve bounds are `int`. -/
structure MachineArgs where
  from_timestamp : Option String
  to_timestamp : Option String
  min_comb_op_tmp_1 : Int
  max_comb_op_tmp_1 : Int
  min_comb_op_tmp_2 : Int
  max_comb_op_tmp_2 : Int
  min_comb_op_tmp_3 : Int
  max_comb_op_tmp_3 : Int
  min_material_pressure : Int
  max_material_pressure : Int
  min_material_temperature : Int
  max_material_temperature : Int
  min_motor_rpm : Int
  max_motor_rpm : Int
deriving DecidableEq, Repr

/-- An invocation of `get_machine_data` that passes only the two timestamps:
every value-bound argument takes the default written in the def signature
(tools.py, lines 41 to 52). -/
def MachineArgs.withDefaults (from_timestamp to_timestamp : Option String) : MachineArgs :=
  ⟨from_timestamp, to_timestamp, 0, 200, 0, 200, 0, 200, 0, 1000, 0, 200, 0, 3000⟩

/-- The `params` dict `get_machine_data` hands to `requests.get` for the
`/machine` endpoint (tools.py, lines 70 to 85). -/
def machineParams (a : MachineArgs) : List (String × PyVal) :=
  [ ("from_ts", PyVal.ofOptStr a.from_timestamp),
    ("to_ts", PyVal.ofOptStr a.to_timestamp),
    ("min_comb_op_tmp_1", PyVal.pyInt a.min_comb_op_tmp_1),
    ("max_comb_op_tmp_1", PyVal.pyInt a.max_comb_op_tmp_1),
    ("min_comb_op_tmp_2", PyVal.pyInt a.min_comb_op_tmp_2),
    ("max_comb_op_tmp_2", PyVal.pyInt a.max_comb_op_tmp_2),
    ("min_comb_op_tmp_3", PyVal.pyInt a.min_comb_op_tmp_3),
    ("max_comb_op_tmp_3", PyVal.pyInt a.max_comb_op_tmp_3),
    ("min_material_pressure", PyVal.pyInt a.min_material_pressure),
    ("max_material_pressure", PyVal.pyInt a.max_material_pressure),
    ("min_material_temperature", PyVal.pyInt a.min_material_temperature),
    ("max_material_temperature", PyVal.pyInt a.max_material_temperature),
    ("min_motor_rpm", PyVal.pyInt a.min_motor_rpm),
    ("max_motor_rpm", PyVal.pyInt a.max_motor_rpm) ]

/-- `get_machine_data` (tools.py, lines 38 to 89): one GET against
`/machine` with the filter params, returning the response text verbatim. -/
def get_machine_data (config : Config) (http : Http) (a : MachineArgs) : String :=
  http (config.BACKEND_URL ++ "/machine") (machineParams a)

/-- The eight arguments of `get_ambient` (tools.py, lines 93 to 102). -/
structure AmbientArgs where
  from_timestamp : Option String
  to_timestamp : Option String
  min_value_humidity : Int
  max_value_humidity : Int
  min_value_amb_temperature : Int
  max_value_amb_temperature : Int
  min_value_zone_1_temperature : Int
  max_value_zone_1_temperature : Int
deriving DecidableEq, Repr

/-- An invocation of `get_ambient` that passes only the two timestamps:
each value bound takes its signature default (tools.py, lines 96 to 101). -/
def AmbientArgs.withDefaults (from_timestamp to_timestamp : Option String) : AmbientArgs :=
  ⟨from_timestamp, to_timestamp, 0, 100, 0, 100, 0, 100⟩

/-- The `params` dict `get_ambient` hands to `requests.get` for the
`/ambient` endpoint (tools.py, lines 119 to 128). -/
def ambientParams (a : AmbientArgs) : List (String × PyVal) :=
  [ ("from_ts", PyVal.ofOptStr a.from_timestamp),
    ("to_ts", PyVal.ofOptStr a.to_timestamp),
    ("min_value_humidity", PyVal.pyInt a.min_value_humidity),
    ("max_value_humidity", PyVal.pyInt a.max_value_humidity),
    ("min_value_amb_temperature", PyVal.pyInt a.min_value_amb_temperature),
    ("max_value_amb_temperature", PyVal.pyInt a.max_value_amb_temperature),
    ("min_value_zone_1_temperature", PyVal.pyInt a.min_value_zone_1_temperature),
    ("max_value_zone_1_temperature", PyVal.pyInt a.max_value_zone_1_temperature) ]

/-- `get_ambient` (tools.py, lines 93 to 132): one GET against `/ambient`
with the filter params, returning the response text verbatim. -/
def get_ambient (config : Config) (http : Http) (a : AmbientArgs) : String :=
  http (config.BACKEND_URL ++ "/ambient") (ambientParams a)

/-- `get_logs` (tools.py, lines 141 to 155): one GET against `/logs` with
no query parameters, returning the response text verbatim. -/
def get_logs (config : Config) (http : Http) : String :=
  http (config.BACKEND_URL ++ "/logs") []

/-- The retriever object built (and never used) by `query_documentation`
(tools.py, lines 175 to 181). -/
structure AzureCognitiveSearchRetriever where
  content_key : String
  service_name : String
  index_name : String
  api_key : Option String
  top_k : Nat
deriving DecidableEq, Repr

/-- `query_documentation` (tools.py, lines 162 to 198): constructs the
retriever, then every further step is `pass`, and the body ends with
`return None`.  The declared return type is `str`, so the returned value is
modelled as `Option String`; the function never queries the backend. -/
def query_documentation (azure_search_key : Option String) (question : String) : Option String :=
  let retriever : AzureCognitiveSearchRetriever :=
    ⟨"content", "hackathon-v2-ai-search", "hackathon-v2-vector-idx-2", azure_search_key, 10⟩
  Option.none

/-- `visualize` (tools.py, lines 205 to 232): every step of the body is
`pass` and it ends with `return None`; no URL is built, no data fetched, no
plot rendered and no image stored, whatever table and column are passed. -/
def visualize (table : String) (column : String) : Option String :=
  Option.none

/-- A parameter as declared in a tool signature: its name, and its default
value when the signature gives one (`Option.none` records that the
parameter has no default and must be supplied by the caller). -/
structure ParamDecl where
  name : String
  default : Option PyVal
deriving DecidableEq, Repr

/-- The fourteen parameters of `get_machine_data` exactly as declared in
tools.py, lines 39 to 52: the two timestamps carry no default; each value
bound carries its integer default. -/
def get_machine_data_params : List ParamDecl :=
  [ ⟨"from_timestamp", Option.none⟩,
    ⟨"to_timestamp", Option.none⟩,
    ⟨"min_comb_op_tmp_1", Option.some (PyVal.pyInt 0)⟩,
    ⟨"max_comb_op_tmp_1", Option.some (PyVal.pyInt 200)⟩,
    ⟨"min_comb_op_tmp_2", Option.some (PyVal.pyInt 0)⟩,
    ⟨"max_comb_op_tmp_2", Option.some (PyVal.pyInt 200)⟩,
    ⟨"min_comb_op_tmp_3", Option.some (PyVal.pyInt 0)⟩,
    ⟨"max_comb_op_tmp_3", Option.some (PyVal.pyInt 200)⟩,
    ⟨"min_material_pressure", Option.some (PyVal.pyInt 0)⟩,
    ⟨"max_material_pressure", Option.some (PyVal.pyInt 1000)⟩,
    ⟨"min_material_temperature", Option.some (PyVal.pyInt 0)⟩,
    ⟨"max_material_temperature", Option.some (PyVal.pyInt 200)⟩,
    ⟨"min_motor_rpm", Option.some (PyVal.pyInt 0)⟩,
    ⟨"max_motor_rpm", Option.some (PyVal.pyInt 3000)⟩ ]

/-- C1: the claim says every tool in the registry returns a string to the
agent for every input.  The code violates it: `query_documentation` is
annotated `-> str` and its docstring promises an answer string, yet its
body ends with `return None`; here the code is evaluated at a concrete
question and yields `Option.none`, not a string. -/
theorem c1_tool_returns_none_not_string :
    query_documentation (Option.some "azure-key") "How do I reset machine 1?" = Option.none :=
  rfl

/-- C2 counterexample: it is false that every one of the fourteen
parameters of `get_machine_data` has a default — `from_timestamp` (and
`to_timestamp`) carry none. -/
theorem c2_not_all_params_have_defaults :
    ¬ (∀ p ∈ get_machine_data_params, p.default.isSome = true) := by
  decide

/-- C2 (amended): of the fourteen parameters of `get_machine_data`,
exactly the two timestamps lack a default; every min/max value bound is
optional with a default. -/
theorem c2_defaults_exactly_off_timestamps (p : ParamDecl)
    (hp : p ∈ get_machine_data_params) :
    p.default = Option.none ↔ (p.name = "from_timestamp" ∨ p.name = "to_timestamp") := by
  fin_cases hp <;> simp

/-- C2 witness: the amended theorem applied to the `min_motor_rpm`
parameter. -/
theorem c2_defaults_witness :
    (ParamDecl.mk "min_motor_rpm" (Option.some (PyVal.pyInt 0))).default = Option.none ↔
      ((ParamDecl.mk "min_motor_rpm" (Option.some (PyVal.pyInt 0))).name = "from_timestamp" ∨
       (ParamDecl.mk "min_motor_rpm" (Option.some (PyVal.pyInt 0))).name = "to_timestamp") :=
  c2_defaults_exactly_off_timestamps ⟨"min_motor_rpm", Option.some (PyVal.pyInt 0)⟩ (by decide)

/-- C3: with every value-range parameter left at its default, the outgoing
query carries exactly the documented default bound: for `get_machine_data`
motor RPM [0,3000], material pressure [0,1000], each temperature [0,200];
for `get_ambient` each quantity [0,100] — whatever the two timestamps are. -/
theorem c3_default_bounds (f t : Option String) :
    (machineParams (MachineArgs.withDefaults f t)).lookup "min_motor_rpm"
        = Option.some (PyVal.pyInt 0) ∧
    (machineParams (MachineArgs.withDefaults f t)).lookup "max_motor_rpm"
        = Option.some (PyVal.pyInt 3000) ∧
    (machineParams (MachineArgs.withDefaults f t)).lookup "min_material_pressure"
        = Option.some (PyVal.pyInt 0) ∧
    (machineParams (MachineArgs.withDefaults f t)).lookup "max_material_pressure"
        = Option.some (PyVal.pyInt 1000) ∧
    (machineParams (MachineArgs.withDefaults f t)).lookup "min_comb_op_tmp_1"
        = Option.some (PyVal.pyInt 0) ∧
    (machineParams (MachineArgs.withDefaults f t)).lookup "max_comb_op_tmp_1"
        = Option.some (PyVal.pyInt 200) ∧
    (machineParams (MachineArgs.withDefaults f t)).lookup "min_comb_op_tmp_2"
        = Option.some (PyVal.pyInt 0) ∧
    (machineParams (MachineArgs.withDefaults f t)).lookup "max_comb_op_tmp_2"
        = Option.some (PyVal.pyInt 200) ∧
    (machineParams (MachineArgs.withDefaults f t)).lookup "min_comb_op_tmp_3"
        = Option.some (PyVal.pyInt 0) ∧
    (machineParams (MachineArgs.withDefaults f t)).lookup "max_comb_op_tmp_3"
        = Option.some (PyVal.pyInt 200) ∧
    (machineParams (MachineArgs.withDefaults f t)).lookup "min_material_temperature"
        = Option.some (PyVal.pyInt 0) ∧
    (machineParams (MachineArgs.withDefaults f t)).lookup "max_material_temperature"
        = Option.some (PyVal.pyInt 200) ∧
    (ambientParams (AmbientArgs.withDefaults f t)).lookup "min_value_humidity"
        = Option.some (PyVal.pyInt 0) ∧
    (ambientParams (AmbientArgs.withDefaults f t)).lookup "max_value_humidity"
        = Option.some (PyVal.pyInt 100) ∧
    (ambientParams (AmbientArgs.withDefaults f t)).lookup "min_value_amb_temperature"
        = Option.some (PyVal.pyInt 0) ∧
    (ambientParams (AmbientArgs.withDefaults f t)).lookup "max_value_amb_temperature"
        = Option.some (PyVal.pyInt 100) ∧
    (ambientParams (AmbientArgs.withDefaults f t)).lookup "min_value_zone_1_temperature"
        = Option.some (PyVal.pyInt 0) ∧
    (ambientParams (AmbientArgs.withDefaults f t)).lookup "max_value_zone_1_temperature"
        = Option.some (PyVal.pyInt 100) := by
  repeat constructor

/-- C4: for every pair of timestamp strings with from less or equal to,
`get_machine_data` and `get_ambient` place both timestamps into the
outgoing query under the keys from_ts and to_ts unmodified — the query
value is the very string that was passed in. -/
theorem c4_timestamps_forwarded_unmodified (a : MachineArgs) (b : AmbientArgs)
    (f t : String)
    (haf : a.from_timestamp = Option.some f) (hat : a.to_timestamp = Option.some t)
    (hbf : b.from_timestamp = Option.some f) (hbt : b.to_timestamp = Option.some t)
    (hle : f ≤ t) :
    (machineParams a).lookup "from_ts" = Option.some (PyVal.pyStr f) ∧
    (machineParams a).lookup "to_ts" = Option.some (PyVal.pyStr t) ∧
    (ambientParams b).lookup "from_ts" = Option.some (PyVal.pyStr f) ∧
    (ambientParams b).lookup "to_ts" = Option.some (PyVal.pyStr t) := by
  simp [machineParams, ambientParams, List.lookup, haf, hat, hbf, hbt, PyVal.ofOptStr]

/-- C4 witness: the theorem applied to the spec scenario interval from
2024-01-01 00:00:00 to 2024-01-02 00:00:00 with all bounds defaulted. -/
theorem c4_timestamps_witness :
    (machineParams (MachineArgs.withDefaults
        (Option.some "2024-01-01 00:00:00") (Option.some "2024-01-02 00:00:00"))).lookup "from_ts"
      = Option.some (PyVal.pyStr "2024-01-01 00:00:00") ∧
    (machineParams (MachineArgs.withDefaults
        (Option.some "2024-01-01 00:00:00") (Option.some "2024-01-02 00:00:00"))).lookup "to_ts"
      = Option.some (PyVal.pyStr "2024-01-02 00:00:00") ∧
    (ambientParams (AmbientArgs.withDefaults
        (Option.some "2024-01-01 00:00:00") (Option.some "2024-01-02 00:00:00"))).lookup "from_ts"
      = Option.some (PyVal.pyStr "2024-01-01 00:00:00") ∧
    (ambientParams (AmbientArgs.withDefaults
        (Option.some "2024-01-01 00:00:00") (Option.some "2024-01-02 00:00:00"))).lookup "to_ts"
      = Option.some (PyVal.pyStr "2024-01-02 00:00:00") :=
  c4_timestamps_forwarded_unmodified
    (MachineArgs.withDefaults (Option.some "2024-01-01 00:00:00") (Option.some "2024-01-02 00:00:00"))
    (AmbientArgs.withDefaults (Option.some "2024-01-01 00:00:00") (Option.some "2024-01-02 00:00:00"))
    "2024-01-01 00:00:00" "2024-01-02 00:00:00" rfl rfl rfl rfl
    (le_of_lt (String.lt_iff_toList_lt.mpr (by decide)))

/-- C5: the claim says a question yielding zero passages above the
relevance threshold makes `query_documentation` return a fixed "no answer
found" string.  The code never retrieves anything and returns `None` for
every question — evaluated here at a concrete question for which the index
would return nothing relevant, it yields `Option.none`, not a fixed
string. -/
theorem c5_zero_passages_returns_none :
    query_documentation (Option.some "azure-key") "unrelated question with no relevant passages"
      = Option.none :=
  rfl

/-- C6: the claim says an unknown table makes `visualize` fail with a
descriptive error and no network call.  The code makes no network call (it
takes no backend at all) but it does not fail with a descriptive error:
evaluated at an unknown table name it returns `Option.none`. -/
theorem c6_unknown_table_returns_none :
    visualize "no_such_table" "motor_rpm" = Option.none :=
  rfl

/-- C7: `get_machine_data` performs no local validation: even with an
inverted motor-RPM range (max strictly below min) and a malformed
from-timestamp string, the outgoing query carries every filter value
unchanged and the backend call is still made with exactly that query. -/
theorem c7_no_local_validation (config : Config) (http : Http) (a : MachineArgs)
    (s : String)
    (hinv : a.max_motor_rpm < a.min_motor_rpm)
    (hmal : a.from_timestamp = Option.some s) :
    (machineParams a).lookup "min_motor_rpm" = Option.some (PyVal.pyInt a.min_motor_rpm) ∧
    (machineParams a).lookup "max_motor_rpm" = Option.some (PyVal.pyInt a.max_motor_rpm) ∧
    (machineParams a).lookup "from_ts" = Option.some (PyVal.pyStr s) ∧
    get_machine_data config http a
      = http (config.BACKEND_URL ++ "/machine") (machineParams a) := by
  refine ⟨?_, ?_, ?_, rfl⟩ <;>
    simp [machineParams, List.lookup, hmal, PyVal.ofOptStr]

/-- C7 witness: the theorem applied to a malformed timestamp and an
inverted RPM range (min 3000, max 0), with a concrete backend. -/
theorem c7_no_local_validation_witness :
    (machineParams ⟨Option.some "not-a-timestamp", Option.none,
        0, 200, 0, 200, 0, 200, 0, 1000, 0, 200, 3000, 0⟩).lookup "min_motor_rpm"
      = Option.some (PyVal.pyInt 3000) ∧
    (machineParams ⟨Option.some "not-a-timestamp", Option.none,
        0, 200, 0, 200, 0, 200, 0, 1000, 0, 200, 3000, 0⟩).lookup "max_motor_rpm"
      = Option.some (PyVal.pyInt 0) ∧
    (machineParams ⟨Option.some "not-a-timestamp", Option.none,
        0, 200, 0, 200, 0, 200, 0, 1000, 0, 200, 3000, 0⟩).lookup "from_ts"
      = Option.some (PyVal.pyStr "not-a-timestamp") ∧
    get_machine_data ⟨"db", "http://backend"⟩ (fun _ _ => "[]")
        ⟨Option.some "not-a-timestamp", Option.none,
          0, 200, 0, 200, 0, 200, 0, 1000, 0, 200, 3000, 0⟩
      = (fun _ _ => "[]") ("http://backend" ++ "/machine")
          (machineParams ⟨Option.some "not-a-timestamp", Option.none,
            0, 200, 0, 200, 0, 200, 0, 1000, 0, 200, 3000, 0⟩) :=
  c7_no_local_validation ⟨"db", "http://backend"⟩ (fun _ _ => "[]")
    ⟨Option.some "not-a-timestamp", Option.none,
      0, 200, 0, 200, 0, 200, 0, 1000, 0, 200, 3000, 0⟩
    "not-a-timestamp" (by decide) rfl

/-- C8: `get_db_info` takes no invocation argument at all; for every
process configuration it returns exactly the configured
database-description string, so every invocation returns the same fixed
string. -/
theorem c8_db_info_fixed (config : Config) :
    get_db_info config = config.DATABASE_DESCR :=
  rfl

/-- C9: determinism with respect to inputs and backend state: if two
backends give the same response on the one query a tool issues, then the
tool returns the same result — shown for `get_machine_data` (same
arguments) and `get_logs`. -/
theorem c9_deterministic (config : Config) (http₁ http₂ : Http) (a : MachineArgs)
    (hm : http₁ (config.BACKEND_URL ++ "/machine") (machineParams a)
        = http₂ (config.BACKEND_URL ++ "/machine") (machineParams a))
    (hl : http₁ (config.BACKEND_URL ++ "/logs") []
        = http₂ (config.BACKEND_URL ++ "/logs") []) :
    get_machine_data config http₁ a = get_machine_data config http₂ a ∧
    get_logs config http₁ = get_logs config http₂ :=
  ⟨hm, hl⟩

/-- C9 witness: the theorem applied to two concrete backends that agree on
the issued queries. -/
theorem c9_deterministic_witness :
    get_machine_data ⟨"db", "http://backend"⟩ (fun _ _ => "records")
        (MachineArgs.withDefaults Option.none Option.none)
      = get_machine_data ⟨"db", "http://backend"⟩ (fun _ _ => "records")
          (MachineArgs.withDefaults Option.none Option.none) ∧
    get_logs ⟨"db", "http://backend"⟩ (fun _ _ => "records")
      = get_logs ⟨"db", "http://backend"⟩ (fun _ _ => "records") :=
  c9_deterministic ⟨"db", "http://backend"⟩ (fun _ _ => "records") (fun _ _ => "records")
    (MachineArgs.withDefaults Option.none Option.none) rfl rfl

/-- C10: both unimplemented tools return `None` for every input:
`query_documentation` for every key and question, and `visualize` for every
table and column pair — including a valid table with a numeric column. -/
theorem c10_stubs_return_none :
    (∀ (k : Option String) (q : String), query_documentation k q = Option.none) ∧
    (∀ (t c : String), visualize t c = Option.none) ∧
    visualize "machine" "motor_rpm" = Option.none :=
  ⟨fun _ _ => rfl, fun _ _ => rfl, rfl⟩
